import Mathlib

/-!
# The user-account backend of `server.js`

A shallow embedding of the Express application in `src/server.js`: the user
record of `UserSchema`, the request gate `verifyToken`, the seven route
handlers, the trailing error-handling middleware and the table of handler
chains that `app.get` / `app.post` / `app.put` / `app.delete` register.

The three third-party libraries are not part of the sources.  The password
hasher (`bcrypt`) and the token library (`jsonwebtoken`) are parameters
(`Libs`); the document store behind the Mongoose model `User` is a list of
records with the adapter operations the handlers call.  Every call into one of
them is recorded in a trace, together with the exception it raised, if any.
-/

namespace Server

/-! ## Data model -/

/-- Store-assigned identifier of a record (`_id`). -/
abbrev Id := Nat

/-- An exception value: what a library rejects with, or a JavaScript
`ReferenceError` raised by reading an identifier that is bound nowhere. -/
inductive Err where
  | lib (detail : String)
  | referenceError (name : String)
deriving DecidableEq, Repr

/-- A document of the `User` model (`UserSchema`, plus the `_id` every
document carries).  A path that was never set is `none`; the array path
`userSkills` is always an array. -/
structure User where
  _id : Id
  name : Option String
  email : Option String
  image : Option String
  address : Option String
  phoneNumber : Option String
  password : Option String
  authToken : Option String
  userSkills : List String
  pricePerHour : Option Int
deriving DecidableEq, Repr

/-- The parsed JSON body of a request (`req.body`), read at the paths of
`UserSchema`; a path the body does not name is `none`. -/
structure ReqBody where
  name : Option String := none
  email : Option String := none
  image : Option String := none
  address : Option String := none
  phoneNumber : Option String := none
  password : Option String := none
  authToken : Option String := none
  userSkills : Option (List String) := none
  pricePerHour : Option Int := none
deriving DecidableEq, Repr

/-- What the handlers read of a request: the `Authorization` header, the
body, and the two properties `verifyToken` attaches (`req.userId`,
`req.isAdmin`), undefined until then. -/
structure Request where
  authorization : Option String := none
  body : ReqBody := {}
  userId : Option Id := none
  isAdmin : Option Bool := none
deriving DecidableEq, Repr

/-- The payload signed into a token and decoded from it. -/
structure Claims where
  userId : Id
  isAdmin : Bool
deriving DecidableEq, Repr

/-- The JSON object passed to `res.json`. -/
inductive Payload where
  | message (message : String)
  | messageToken (message : String) (authToken : String)
  | messageUser (message : String) (key : String) (user : User)
  | users (users : List User)
deriving DecidableEq, Repr

/-- An HTTP response: status code and JSON body. -/
structure Response where
  status : Nat
  body : Payload
deriving DecidableEq, Repr

/-- The two libraries the handlers call, as functions of what the code passes
to them.  `hash data rounds salt` is `bcrypt.hash(data, rounds)` with the
entropy it draws; `compare data encrypted` is `bcrypt.compare`;
`sign payload secret expiresIn now` is `jwt.sign` with `expiresIn` in seconds
at clock `now`; `verify token secret now` is `jwt.verify`. -/
structure Libs where
  hash : Option String → Nat → Nat → Except Err String
  compare : Option String → Option String → Except Err Bool
  sign : Claims → Option String → Nat → Nat → Except Err String
  verify : String → Option String → Nat → Except Err Claims

/-- The surroundings of one request: the libraries, `process.env.JWT_SECRET`,
the clock, the entropy the hasher draws, and whether the store adapter rejects
its call during this request (connection failure, cast error, ...). -/
structure Env where
  libs : Libs
  secret : Option String
  now : Nat
  salt : Nat
  storeFault : Option Err

/-- The operations of the store adapter. -/
inductive StoreOp where
  | save | findOne | findById | find | findByIdAndDelete | findByIdAndUpdate
deriving DecidableEq, Repr

/-- One call into a library, with what was passed and what it raised. -/
inductive Call where
  | hash (data : Option String) (rounds : Nat) (raised : Option Err)
  | compare (data encrypted : Option String) (raised : Option Err)
  | sign (payload : Claims) (secret : Option String) (expiresIn : Nat) (raised : Option Err)
  | verify (token : String) (secret : Option String) (raised : Option Err)
  | store (op : StoreOp) (raised : Option Err)
deriving DecidableEq, Repr

/-- The exception a recorded call raised. -/
def Call.raised : Call → Option Err
  | .hash _ _ r => r
  | .compare _ _ r => r
  | .sign _ _ _ r => r
  | .verify _ _ r => r
  | .store _ r => r

/-- Whether a recorded call is a token issuance. -/
def Call.isSign : Call → Bool
  | .sign _ _ _ _ => true
  | _ => false

/-- Whether a recorded call is a token verification. -/
def Call.isVerify : Call → Bool
  | .verify _ _ _ => true
  | _ => false

/-! ## The request gate -/

/-- JavaScript truthiness of a header value: `undefined` and the empty string
are falsy. -/
def truthy : Option String → Bool
  | none => false
  | some s => s != ""

/-- What a middleware did with the request: sent a response, or called
`next()`. -/
inductive GateSignal where
  | sent (r : Response)
  | next
deriving DecidableEq, Repr

/-- The result of running a middleware. -/
structure GateStep where
  signal : GateSignal
  req : Request
  trace : List Call

/-- Number of calls of `next`. -/
def GateStep.nextCalls (s : GateStep) : Nat :=
  match s.signal with
  | .next => 1
  | .sent _ => 0

/-- The response sent, if any. -/
def GateStep.response (s : GateStep) : Option Response :=
  match s.signal with
  | .next => none
  | .sent r => some r

/-- The middleware `verifyToken` (server.js, lines 32-49). -/
def verifyToken (E : Env) (req : Request) : GateStep :=
  let authToken := req.authorization
  if !truthy authToken then
    { signal := .sent ⟨401, .message "Authorization token missing"⟩, req := req, trace := [] }
  else
    let token := authToken.getD ""
    match E.libs.verify token E.secret E.now with
    | .error err =>
      { signal := .sent ⟨401, .message "Invalid token"⟩, req := req,
        trace := [.verify token E.secret (some err)] }
    | .ok decodedToken =>
      { signal := .next,
        req := { req with userId := some decodedToken.userId, isAdmin := some decodedToken.isAdmin },
        trace := [.verify token E.secret none] }

/-! ## The document store -/

/-- The collection behind the model `User`, in insertion order, and the
counter from which `new User(...)` draws the next `_id`. -/
structure Store where
  users : List User
  nextId : Id
deriving DecidableEq, Repr

/-- Modelled from the spec: `findById(id)` of the account store adapter
(Mongoose's `User.findById`, not part of the sources).  It returns the record
with that identifier, an absent result when none matches or when the
identifier is `undefined`, and rejects when the adapter is faulty. -/
def Store.findById (s : Store) (E : Env) (id : Option Id) : Except Err (Option User) :=
  match E.storeFault with
  | some e => .error e
  | none =>
    match id with
    | none => .ok none
    | some i => .ok (s.users.find? (fun u => u._id == i))

/-- Modelled from the spec: `findByEmail(email)` of the account store adapter
(Mongoose's `User.findOne` with an `email` filter, not part of the sources):
the first record, in insertion order, whose email equals the one asked for,
or an absent result. -/
def Store.findOne (s : Store) (E : Env) (email : Option String) : Except Err (Option User) :=
  match E.storeFault with
  | some e => .error e
  | none => .ok (s.users.find? (fun u => u.email == email))

/-- Modelled from the spec: `findAll()` of the account store adapter
(Mongoose's `User.find`, not part of the sources). -/
def Store.find (s : Store) (E : Env) : Except Err (List User) :=
  match E.storeFault with
  | some e => .error e
  | none => .ok s.users

/-- Modelled from the spec: `insert(record)` of the account store adapter
(Mongoose's `document.save`, not part of the sources): the record is added
after the existing ones. -/
def Store.save (s : Store) (E : Env) (u : User) : Except Err Store :=
  match E.storeFault with
  | some e => .error e
  | none => .ok { users := s.users ++ [u], nextId := s.nextId + 1 }

/-- Remove the first record with identifier `i`. -/
def eraseById (i : Id) : List User → List User
  | [] => []
  | u :: rest => if u._id == i then rest else u :: eraseById i rest

/-- Modelled from the spec: `deleteById(id)` of the account store adapter
(Mongoose's `User.findByIdAndDelete`, not part of the sources): removes the
record with that identifier and returns it, or returns an absent result. -/
def Store.findByIdAndDelete (s : Store) (E : Env) (i : Id) : Except Err (Option User × Store) :=
  match E.storeFault with
  | some e => .error e
  | none =>
    match s.users.find? (fun u => u._id == i) with
    | none => .ok (none, s)
    | some u => .ok (some u, { s with users := eraseById i s.users })

/-- The value of a path after an update: the one the update names, else the
old one. -/
def setPath {α : Type} (new old : Option α) : Option α :=
  match new with
  | some x => some x
  | none => old

/-- A record after the paths named in `b` were set. -/
def applyUpdate (u : User) (b : ReqBody) : User :=
  { _id := u._id
    name := setPath b.name u.name
    email := setPath b.email u.email
    image := setPath b.image u.image
    address := setPath b.address u.address
    phoneNumber := setPath b.phoneNumber u.phoneNumber
    password := setPath b.password u.password
    authToken := setPath b.authToken u.authToken
    userSkills := b.userSkills.getD u.userSkills
    pricePerHour := setPath b.pricePerHour u.pricePerHour }

/-- Replace the first record with identifier `i` by its update. -/
def updateById (i : Id) (b : ReqBody) : List User → List User
  | [] => []
  | u :: rest => if u._id == i then applyUpdate u b :: rest else u :: updateById i b rest

/-- Modelled from the spec: `updateById(id, partialFields)` of the account
store adapter (Mongoose's `User.findByIdAndUpdate` with the option `new`, not
part of the sources): sets the named paths of the record with that identifier
and returns the record as it is after the update, or an absent result. -/
def Store.findByIdAndUpdate (s : Store) (E : Env) (i : Id) (b : ReqBody) :
    Except Err (Option User × Store) :=
  match E.storeFault with
  | some e => .error e
  | none =>
    match s.users.find? (fun u => u._id == i) with
    | none => .ok (none, s)
    | some u => .ok (some (applyUpdate u b), { s with users := updateById i b s.users })

/-! ## The route handlers -/

/-- How a route handler ended: it sent a response, or its `catch` block
passed the exception on with `next(error)`. -/
inductive HandlerSignal where
  | sent (r : Response)
  | nextErr (e : Err)
deriving DecidableEq, Repr

/-- The result of running a route handler. -/
structure HandlerStep where
  signal : HandlerSignal
  store : Store
  trace : List Call

/-- The option `expiresIn: "1h"` of both `jwt.sign` calls, in seconds. -/
def oneHour : Nat := 3600

/-- The handler of `POST /register` (server.js, lines 52-96). -/
def register (E : Env) (req : Request) (s : Store) : HandlerStep :=
  let body := req.body
  match E.libs.hash body.password 10 E.salt with
  | .error error => ⟨.nextErr error, s, [.hash body.password 10 (some error)]⟩
  | .ok hashedPassword =>
    let newUser : User :=
      { _id := s.nextId
        name := body.name
        email := body.email
        image := body.image
        address := body.address
        phoneNumber := body.phoneNumber
        password := some hashedPassword
        authToken := none
        userSkills := body.userSkills.getD []
        pricePerHour := body.pricePerHour }
    let claims : Claims := { userId := newUser._id, isAdmin := false }
    match E.libs.sign claims E.secret oneHour E.now with
    | .error error =>
      ⟨.nextErr error, s,
        [.hash body.password 10 none, .sign claims E.secret oneHour (some error)]⟩
    | .ok authToken =>
      let newUser := { newUser with authToken := some authToken }
      match s.save E newUser with
      | .error error =>
        ⟨.nextErr error, s,
          [.hash body.password 10 none, .sign claims E.secret oneHour none,
            .store .save (some error)]⟩
      | .ok s' =>
        ⟨.sent ⟨201, .messageToken "User registered successfully" authToken⟩, s',
          [.hash body.password 10 none, .sign claims E.secret oneHour none,
            .store .save none]⟩

/-- The handler of `POST /login` (server.js, lines 99-122). -/
def login (E : Env) (req : Request) (s : Store) : HandlerStep :=
  let email := req.body.email
  let password := req.body.password
  match s.findOne E email with
  | .error error => ⟨.nextErr error, s, [.store .findOne (some error)]⟩
  | .ok none => ⟨.sent ⟨401, .message "Invalid credentials"⟩, s, [.store .findOne none]⟩
  | .ok (some user) =>
    match E.libs.compare password user.password with
    | .error error =>
      ⟨.nextErr error, s, [.store .findOne none, .compare password user.password (some error)]⟩
    | .ok false =>
      ⟨.sent ⟨401, .message "Invalid credentials"⟩, s,
        [.store .findOne none, .compare password user.password none]⟩
    | .ok true =>
      let claims : Claims := { userId := user._id, isAdmin := false }
      match E.libs.sign claims E.secret oneHour E.now with
      | .error error =>
        ⟨.nextErr error, s,
          [.store .findOne none, .compare password user.password none,
            .sign claims E.secret oneHour (some error)]⟩
      | .ok authToken =>
        ⟨.sent ⟨200, .messageToken "Login successful" authToken⟩, s,
          [.store .findOne none, .compare password user.password none,
            .sign claims E.secret oneHour none]⟩

/-- The handler of `GET /user/:id` (server.js, lines 125-140). -/
def getUser (userId : Id) (E : Env) (_req : Request) (s : Store) : HandlerStep :=
  match s.findById E (some userId) with
  | .error error => ⟨.nextErr error, s, [.store .findById (some error)]⟩
  | .ok none => ⟨.sent ⟨404, .message "User not found"⟩, s, [.store .findById none]⟩
  | .ok (some user) =>
    ⟨.sent ⟨200, .messageUser "User data retrieved successfully" "user" user⟩, s,
      [.store .findById none]⟩

/-- The handler of `GET /users` (server.js, lines 143-151). -/
def listUsers (E : Env) (_req : Request) (s : Store) : HandlerStep :=
  match s.find E with
  | .error error => ⟨.nextErr error, s, [.store .find (some error)]⟩
  | .ok users => ⟨.sent ⟨200, .users users⟩, s, [.store .find none]⟩

/-- The handler of `DELETE /user/:id` (server.js, lines 153-168). -/
def deleteUser (userId : Id) (E : Env) (_req : Request) (s : Store) : HandlerStep :=
  match s.findByIdAndDelete E userId with
  | .error error => ⟨.nextErr error, s, [.store .findByIdAndDelete (some error)]⟩
  | .ok (none, s') =>
    ⟨.sent ⟨404, .message "User not found"⟩, s', [.store .findByIdAndDelete none]⟩
  | .ok (some deletedUser, s') =>
    ⟨.sent ⟨200, .messageUser "User deleted successfully" "deletedUser" deletedUser⟩, s',
      [.store .findByIdAndDelete none]⟩

/-- The handler of `PUT /user/:id` (server.js, lines 171-189). -/
def updateUser (userId : Id) (E : Env) (req : Request) (s : Store) : HandlerStep :=
  let updateData := req.body
  match s.findByIdAndUpdate E userId updateData with
  | .error error => ⟨.nextErr error, s, [.store .findByIdAndUpdate (some error)]⟩
  | .ok (none, s') =>
    ⟨.sent ⟨404, .message "User not found"⟩, s', [.store .findByIdAndUpdate none]⟩
  | .ok (some updatedUser, s') =>
    ⟨.sent ⟨200, .messageUser "User updated successfully" "updatedUser" updatedUser⟩, s',
      [.store .findByIdAndUpdate none]⟩

/-- The identifiers bound at module level of `server.js`, and the globals of
the runtime the file uses, each bound to a truthy value. -/
def moduleScope : List (String × Bool) :=
  [("express", true), ("mongoose", true), ("bcrypt", true), ("jwt", true), ("app", true),
    ("UserSchema", true), ("User", true), ("verifyToken", true), ("PORT", true),
    ("require", true), ("process", true), ("console", true)]

/-- Reading an identifier: its truthiness when it is bound in the scope, a
`ReferenceError` when it is not. -/
def readVar (scope : List (String × Bool)) (x : String) : Except Err Bool :=
  match scope.find? (fun b => b.1 == x) with
  | some b => .ok b.2
  | none => .error (.referenceError x)

/-- The handler of `GET /protected-route` (server.js, lines 192-207).  The
condition of its `if` reads `err`, which is bound neither in the handler nor
at module level. -/
def protectedRoute (E : Env) (req : Request) (s : Store) : HandlerStep :=
  let userId := req.userId
  match s.findById E userId with
  | .error error => ⟨.nextErr error, s, [.store .findById (some error)]⟩
  | .ok user =>
    let scope := [("req", true), ("res", true), ("next", true), ("userId", userId.isSome),
      ("user", user.isSome)] ++ moduleScope
    match readVar scope "err" with
    | .error error => ⟨.nextErr error, s, [.store .findById none]⟩
    | .ok err =>
      match err, user with
      | false, some user =>
        ⟨.sent ⟨200, .messageUser "Protected route accessed" "user" user⟩, s,
          [.store .findById none]⟩
      | _, _ => ⟨.sent ⟨404, .message "User not found"⟩, s, [.store .findById none]⟩

/-- The error-handling middleware (server.js, lines 209-212). -/
def errorMiddleware (_err : Err) : Response :=
  ⟨500, .message "Something went wrong"⟩

/-! ## The application -/

/-- The routes the application registers. -/
inductive Endpoint where
  | register
  | login
  | getUser (id : Id)
  | listUsers
  | deleteUser (id : Id)
  | updateUser (id : Id)
  | protectedRoute
deriving DecidableEq, Repr

/-- A handler chain: the middlewares that run first, and the route handler. -/
structure Route where
  gates : List (Env → Request → GateStep)
  handler : Env → Request → Store → HandlerStep

/-- The chains as registered by `app.post`, `app.get`, `app.delete` and
`app.put`: every route is registered with its handler alone. -/
def routes : Endpoint → Route
  | .register => ⟨[], register⟩
  | .login => ⟨[], login⟩
  | .getUser id => ⟨[], getUser id⟩
  | .listUsers => ⟨[], listUsers⟩
  | .deleteUser id => ⟨[], deleteUser id⟩
  | .updateUser id => ⟨[], updateUser id⟩
  | .protectedRoute => ⟨[], protectedRoute⟩

/-- What a request ends in: the response, the store afterwards, and the
library calls made on the way. -/
structure Outcome where
  response : Response
  store : Store
  trace : List Call

/-- Run a route handler and, when it passes an exception on, the
error-handling middleware. -/
def runHandler (h : Env → Request → Store → HandlerStep) (E : Env) (req : Request)
    (s : Store) (before : List Call) : Outcome :=
  let step := h E req s
  match step.signal with
  | .sent r => ⟨r, step.store, before ++ step.trace⟩
  | .nextErr e => ⟨errorMiddleware e, step.store, before ++ step.trace⟩

/-- Run a chain: each middleware in turn, as long as it calls `next`, then
the handler. -/
def runChain : List (Env → Request → GateStep) → (Env → Request → Store → HandlerStep) →
    Env → Request → Store → List Call → Outcome
  | [], h, E, req, s, before => runHandler h E req s before
  | g :: gs, h, E, req, s, before =>
    let step := g E req
    match step.signal with
    | .sent r => ⟨r, s, before ++ step.trace⟩
    | .next => runChain gs h E step.req s (before ++ step.trace)

/-- The application: the response to a request on a registered route. -/
def app (E : Env) (ep : Endpoint) (req : Request) (s : Store) : Outcome :=
  runChain (routes ep).gates (routes ep).handler E req s []

/-! ## Contracts of the libraries and of the store -/

/-- The contract of the credential hasher: a hash it produces for a password
is not empty, is not the password, and passes the check against it. -/
def HasherContract (L : Libs) : Prop :=
  ∀ (p : String) (rounds salt : Nat) (h : String),
    L.hash (some p) rounds salt = .ok h →
      h ≠ "" ∧ h ≠ p ∧ L.compare (some p) (some h) = .ok true

/-- The contract of the token library: a token it issues is not empty and,
under the same secret and before its expiry, verifies to the payload that was
signed. -/
def TokenContract (L : Libs) : Prop :=
  ∀ (c : Claims) (secret : Option String) (expiresIn t0 : Nat) (tok : String),
    L.sign c secret expiresIn t0 = .ok tok →
      tok ≠ "" ∧ ∀ t, t0 ≤ t → t < t0 + expiresIn → L.verify tok secret t = .ok c

/-- The invariant of the collection: identifiers are pairwise distinct and
below the counter the next one is drawn from. -/
def Store.WF (s : Store) : Prop :=
  (s.users.map (fun u => u._id)).Nodup ∧ ∀ u ∈ s.users, u._id < s.nextId

instance (s : Store) : Decidable s.WF := by
  unfold Store.WF
  exact inferInstance

/-! ## Concrete libraries and inputs for the examples -/

/-- A hasher for the examples: rejects a missing password, prefixes the
others. -/
def demoHash (data : Option String) (_rounds _salt : Nat) : Except Err String :=
  match data with
  | none => .error (.lib "data and salt arguments required")
  | some p => .ok ("$2b$10$" ++ p)

/-- The password check that goes with `demoHash`. -/
def demoCompare (data encrypted : Option String) : Except Err Bool :=
  match data, encrypted with
  | some p, some h => .ok (h == "$2b$10$" ++ p)
  | _, _ => .error (.lib "data and hash arguments required")

/-- A token issuer for the examples: needs a secret; the token is the letter
`A` (administrator) or `U`, once and then once more per unit of the
identifier. -/
def demoSign (c : Claims) (secret : Option String) (_expiresIn _now : Nat) : Except Err String :=
  match secret with
  | none => .error (.lib "secretOrPrivateKey must have a value")
  | some _ => .ok (String.mk (List.replicate (c.userId + 1) (if c.isAdmin then 'A' else 'U')))

/-- The verifier that goes with `demoSign`. -/
def demoVerify (token : String) (secret : Option String) (_now : Nat) : Except Err Claims :=
  match secret with
  | none => .error (.lib "secret or public key must be provided")
  | some _ =>
    match token.data with
    | [] => .error (.lib "jwt must be provided")
    | c :: rest =>
      if rest = List.replicate rest.length c then
        if c = 'A' then .ok ⟨rest.length, true⟩
        else if c = 'U' then .ok ⟨rest.length, false⟩
        else .error (.lib "jwt malformed")
      else .error (.lib "jwt malformed")

/-- The example libraries. -/
def demoLibs : Libs := ⟨demoHash, demoCompare, demoSign, demoVerify⟩

/-- The example surroundings: a secret is configured and the store answers. -/
def demoEnv : Env := ⟨demoLibs, some "s3cret", 1000, 7, none⟩

/-- The example surroundings with the store unreachable. -/
def downEnv : Env := { demoEnv with storeFault := some (.lib "connection lost") }

/-- The example surroundings without a signing secret. -/
def noSecretEnv : Env := { demoEnv with secret := none }

/-- The messages of the failure responses. -/
def failureMessages : List String :=
  ["Authorization token missing", "Invalid token", "Invalid credentials", "User not found",
    "Something went wrong"]

/-- A registration body. -/
def aliceBody : ReqBody :=
  { name := some "Alice", email := some "alice@example.org", password := some "wonderland" }

/-- A second registration under Alice's email, with another password. -/
def secondBody : ReqBody :=
  { name := some "Alice L.", email := some "alice@example.org", password := some "looking-glass" }

/-- The example surroundings half an hour later. -/
def laterEnv : Env := { demoEnv with now := 2800 }

/-- The store after Alice registered with an empty collection. -/
def aliceStore : Store := (app demoEnv .register { body := aliceBody } ⟨[], 0⟩).store

/-- A registration body with another email. -/
def bobBody : ReqBody :=
  { name := some "Bob", email := some "bob@example.org", password := some "builder" }

/-- The store after Bob registered as well. -/
def twoStore : Store := (app demoEnv .register { body := bobBody } aliceStore).store

/-! # Properties -/

/-! ## The request gate -/

/-- C4: `verifyToken` ends in exactly one of three outcomes.  (1) No usable
`Authorization` header (absent, or the empty string): 401 "Authorization token
missing", no call of the verifier, no call of `next`.  (2) A non-empty header
on which the verifier fails: 401 "Invalid token", the request is left as it
was, no call of `next`.  (3) A non-empty header on which the verifier succeeds:
`req.userId` and `req.isAdmin` are the decoded claims, no response is sent and
`next` is called once.  In (2) and (3) the verifier is called once, with the
header string as it came.  The three cases exclude each other and cover every
request. -/
theorem verifyToken_three_outcomes (E : Env) (req : Request) :
    ((req.authorization = none ∨ req.authorization = some "") →
      (verifyToken E req).response = some ⟨401, .message "Authorization token missing"⟩ ∧
      (verifyToken E req).trace = [] ∧
      (verifyToken E req).nextCalls = 0 ∧
      (verifyToken E req).req = req) ∧
    (∀ tok err, req.authorization = some tok → tok ≠ "" →
      E.libs.verify tok E.secret E.now = .error err →
      (verifyToken E req).response = some ⟨401, .message "Invalid token"⟩ ∧
      (verifyToken E req).trace = [.verify tok E.secret (some err)] ∧
      (verifyToken E req).nextCalls = 0 ∧
      (verifyToken E req).req = req) ∧
    (∀ tok claims, req.authorization = some tok → tok ≠ "" →
      E.libs.verify tok E.secret E.now = .ok claims →
      (verifyToken E req).response = none ∧
      (verifyToken E req).trace = [.verify tok E.secret none] ∧
      (verifyToken E req).nextCalls = 1 ∧
      (verifyToken E req).req =
        { req with userId := some claims.userId, isAdmin := some claims.isAdmin }) ∧
    ((req.authorization = none ∨ req.authorization = some "") ∨
      (∃ tok, req.authorization = some tok ∧ tok ≠ "" ∧
        ((∃ err, E.libs.verify tok E.secret E.now = .error err) ∨
          (∃ claims, E.libs.verify tok E.secret E.now = .ok claims)))) ∧
    ¬ ((req.authorization = none ∨ req.authorization = some "") ∧
      ∃ tok, req.authorization = some tok ∧ tok ≠ "") := by
  refine ⟨?_, ?_, ?_, ?_, ?_⟩
  · rintro (h | h) <;>
      simp [verifyToken, h, truthy, GateStep.response, GateStep.nextCalls]
  · intro tok err h hne hv
    simp [verifyToken, h, truthy, hne, hv, GateStep.response, GateStep.nextCalls]
  · intro tok claims h hne hv
    simp [verifyToken, h, truthy, hne, hv, GateStep.response, GateStep.nextCalls]
  · cases h : req.authorization with
    | none => exact Or.inl (Or.inl rfl)
    | some tok =>
      by_cases hne : tok = ""
      · exact Or.inl (Or.inr (by rw [hne]))
      · refine Or.inr ⟨tok, rfl, hne, ?_⟩
        cases hv : E.libs.verify tok E.secret E.now with
        | error err => exact Or.inl ⟨err, rfl⟩
        | ok claims => exact Or.inr ⟨claims, rfl⟩
  · rintro ⟨h | h, tok, h', hne⟩
    · rw [h] at h'; cases h'
    · rw [h] at h'; cases h'; exact hne rfl

/-- Witness of `verifyToken_three_outcomes`: a header with a scheme word in
front goes to the verifier as it is and is rejected; an empty header counts as
missing; a token of the example issuer is decoded into the request. -/
theorem verifyToken_three_outcomes_witness :
    ((verifyToken demoEnv { authorization := some "" }).response =
        some ⟨401, .message "Authorization token missing"⟩ ∧
      (verifyToken demoEnv { authorization := some "" }).trace = [] ∧
      (verifyToken demoEnv { authorization := some "" }).nextCalls = 0 ∧
      (verifyToken demoEnv { authorization := some "" }).req = { authorization := some "" }) ∧
    ((verifyToken demoEnv { authorization := some "Bearer UU" }).response =
        some ⟨401, .message "Invalid token"⟩ ∧
      (verifyToken demoEnv { authorization := some "Bearer UU" }).trace =
        [.verify "Bearer UU" (some "s3cret") (some (.lib "jwt malformed"))] ∧
      (verifyToken demoEnv { authorization := some "Bearer UU" }).nextCalls = 0 ∧
      (verifyToken demoEnv { authorization := some "Bearer UU" }).req =
        { authorization := some "Bearer UU" }) ∧
    ((verifyToken demoEnv { authorization := some "UU" }).response = none ∧
      (verifyToken demoEnv { authorization := some "UU" }).trace =
        [.verify "UU" (some "s3cret") none] ∧
      (verifyToken demoEnv { authorization := some "UU" }).nextCalls = 1 ∧
      (verifyToken demoEnv { authorization := some "UU" }).req =
        { authorization := some "UU", userId := some 1, isAdmin := some false }) :=
  ⟨(verifyToken_three_outcomes demoEnv { authorization := some "" }).1 (Or.inr rfl),
    (verifyToken_three_outcomes demoEnv { authorization := some "Bearer UU" }).2.1
      "Bearer UU" (.lib "jwt malformed") rfl (by decide) (by rfl),
    (verifyToken_three_outcomes demoEnv { authorization := some "UU" }).2.2.1
      "UU" ⟨1, false⟩ rfl (by decide) (by rfl)⟩

/-! ## The protected route -/

/-- The handler of the protected route never sends a response itself: the
store call rejects, or reading `err` raises a `ReferenceError`; either way the
exception goes to `next`. -/
theorem protectedRoute_signal (E : Env) (req : Request) (s : Store) :
    ∃ e, (protectedRoute E req s).signal = .nextErr e ∧ (protectedRoute E req s).store = s ∧
      ∀ c ∈ (protectedRoute E req s).trace, c.isVerify = false := by
  cases hf : s.findById E req.userId with
  | error e => exact ⟨e, by simp [protectedRoute, hf, Call.isVerify]⟩
  | ok user =>
    exact ⟨.referenceError "err",
      by simp [protectedRoute, hf, readVar, moduleScope, Call.isVerify]⟩

/-- C1 (the code differs): the chain registered at `/protected-route` holds no
middleware, so `verifyToken` does not run there.  A request without an
`Authorization` header, and one with any token in it, are answered 500
"Something went wrong", and the verifier is not called. -/
theorem protectedRoute_not_gated (E : Env) (req : Request) (s : Store) (tok : String) :
    (routes .protectedRoute).gates = [] ∧
    (app E .protectedRoute { req with authorization := none } s).response =
      ⟨500, .message "Something went wrong"⟩ ∧
    (app E .protectedRoute { req with authorization := some tok } s).response =
      ⟨500, .message "Something went wrong"⟩ ∧
    (∀ c ∈ (app E .protectedRoute { req with authorization := none } s).trace,
      c.isVerify = false) ∧
    (∀ c ∈ (app E .protectedRoute { req with authorization := some tok } s).trace,
      c.isVerify = false) := by
  obtain ⟨e1, h1, -, h1t⟩ := protectedRoute_signal E { req with authorization := none } s
  obtain ⟨e2, h2, -, h2t⟩ := protectedRoute_signal E { req with authorization := some tok } s
  refine ⟨rfl, ?_, ?_, ?_, ?_⟩
  · simp [app, routes, runChain, runHandler, h1, errorMiddleware]
  · simp [app, routes, runChain, runHandler, h2, errorMiddleware]
  · simpa [app, routes, runChain, runHandler, h1] using h1t
  · simpa [app, routes, runChain, runHandler, h2] using h2t

/-- C2 (the code differs): whatever the request and the store, the protected
route answers 500 and leaves the store as it was; it never answers 200 or
404.  So it does for a token the example issuer made for a record of the
store, also when `verifyToken` has attached the subject to the request. -/
theorem protectedRoute_always_500 (E : Env) (req : Request) (s : Store) :
    (app E .protectedRoute req s).response = ⟨500, .message "Something went wrong"⟩ ∧
    (app E .protectedRoute req s).store = s ∧
    (app demoEnv .protectedRoute { authorization := some "U" } aliceStore).response.status = 500 ∧
    (app demoEnv .protectedRoute (verifyToken demoEnv { authorization := some "U" }).req
      aliceStore).response.status = 500 ∧
    (verifyToken demoEnv { authorization := some "U" }).req.userId = some 0 ∧
    (∃ u, aliceStore.findById demoEnv (some 0) = .ok (some u)) := by
  obtain ⟨e, h, hs, -⟩ := protectedRoute_signal E req s
  refine ⟨?_, ?_, by rfl, by rfl, by rfl, ⟨_, rfl⟩⟩
  · simp [app, routes, runChain, runHandler, h, errorMiddleware]
  · simpa [app, routes, runChain, runHandler, h] using hs

/-! ## Login -/

/-- C3: a login for which the store finds no record with the submitted
email, or finds one whose stored hash the password check rejects, is answered
401 with exactly the message "Invalid credentials"; no token is signed and the
store stays as it was.  The answer is the same value in both cases, for every
request, store and environment.  A 200 answer occurs only when a record
matches the email and the password check succeeds, and then carries "Login
successful" and the token signed for that record. -/
theorem login_invalid_credentials (E : Env) (req : Request) (s : Store) :
    ((s.findOne E req.body.email = .ok none ∨
        ∃ u, s.findOne E req.body.email = .ok (some u) ∧
          E.libs.compare req.body.password u.password = .ok false) →
      (app E .login req s).response = ⟨401, .message "Invalid credentials"⟩ ∧
      (∀ c ∈ (app E .login req s).trace, c.isSign = false) ∧
      (app E .login req s).store = s) ∧
    (∀ (E' : Env) (req' : Request) (s' : Store) (u : User),
      s.findOne E req.body.email = .ok none →
      s'.findOne E' req'.body.email = .ok (some u) →
      E'.libs.compare req'.body.password u.password = .ok false →
      (app E .login req s).response = (app E' .login req' s').response) ∧
    ((app E .login req s).response.status = 200 →
      ∃ u tok, s.findOne E req.body.email = .ok (some u) ∧
        E.libs.compare req.body.password u.password = .ok true ∧
        E.libs.sign ⟨u._id, false⟩ E.secret oneHour E.now = .ok tok ∧
        (app E .login req s).response = ⟨200, .messageToken "Login successful" tok⟩) := by
  refine ⟨?_, ?_, ?_⟩
  · rintro (h | ⟨u, h, hc⟩)
    · simp [app, routes, runChain, runHandler, login, h, Call.isSign]
    · simp [app, routes, runChain, runHandler, login, h, hc, Call.isSign]
  · intro E' req' s' u h h' hc'
    simp [app, routes, runChain, runHandler, login, h, h', hc']
  · intro hst
    cases h : s.findOne E req.body.email with
    | error e => simp [app, routes, runChain, runHandler, login, h, errorMiddleware] at hst
    | ok found =>
      cases found with
      | none => simp [app, routes, runChain, runHandler, login, h] at hst
      | some u =>
        cases hc : E.libs.compare req.body.password u.password with
        | error e =>
          simp [app, routes, runChain, runHandler, login, h, hc, errorMiddleware] at hst
        | ok b =>
          cases b with
          | false => simp [app, routes, runChain, runHandler, login, h, hc] at hst
          | true =>
            cases hs : E.libs.sign ⟨u._id, false⟩ E.secret oneHour E.now with
            | error e =>
              simp [app, routes, runChain, runHandler, login, h, hc, hs, errorMiddleware] at hst
            | ok tok =>
              exact ⟨u, tok, rfl, hc, hs,
                by simp [app, routes, runChain, runHandler, login, h, hc, hs]⟩

/-- Witness of `login_invalid_credentials`: Alice's store; an unknown email
and Alice's email with a wrong password get the same 401, and her right
password gets 200. -/
theorem login_invalid_credentials_witness :
    ((app demoEnv .login { body := { email := some "bob@example.org", password := some "x" } }
        aliceStore).response = ⟨401, .message "Invalid credentials"⟩ ∧
      (∀ c ∈ (app demoEnv .login
          { body := { email := some "bob@example.org", password := some "x" } }
          aliceStore).trace, c.isSign = false) ∧
      (app demoEnv .login { body := { email := some "bob@example.org", password := some "x" } }
        aliceStore).store = aliceStore) ∧
    (app demoEnv .login { body := { email := some "bob@example.org", password := some "x" } }
        aliceStore).response =
      (app demoEnv .login
        { body := { email := some "alice@example.org", password := some "x" } }
        aliceStore).response ∧
    (∃ u tok, aliceStore.findOne demoEnv aliceBody.email = .ok (some u) ∧
      demoEnv.libs.compare aliceBody.password u.password = .ok true ∧
      demoEnv.libs.sign ⟨u._id, false⟩ demoEnv.secret oneHour demoEnv.now = .ok tok ∧
      (app demoEnv .login { body := aliceBody } aliceStore).response =
        ⟨200, .messageToken "Login successful" tok⟩) :=
  ⟨(login_invalid_credentials demoEnv
      { body := { email := some "bob@example.org", password := some "x" } } aliceStore).1
      (Or.inl (by rfl)),
    (login_invalid_credentials demoEnv
      { body := { email := some "bob@example.org", password := some "x" } } aliceStore).2.1
      demoEnv { body := { email := some "alice@example.org", password := some "x" } } aliceStore
      { _id := 0, name := some "Alice", email := some "alice@example.org", image := none,
        address := none, phoneNumber := none, password := some "$2b$10$wonderland",
        authToken := some "U", userSkills := [], pricePerHour := none }
      (by rfl) (by rfl) (by rfl),
    (login_invalid_credentials demoEnv { body := aliceBody } aliceStore).2.2 (by rfl)⟩

/-! ## Lookup, deletion and update in the collection -/

theorem find?_eraseById_ne (i j : Id) (h : j ≠ i) (l : List User) :
    (eraseById i l).find? (fun u => u._id == j) = l.find? (fun u => u._id == j) := by
  induction l with
  | nil => rfl
  | cons u rest ih =>
    by_cases hu : u._id = i
    · have hj : (i == j) = false := by
        simp only [beq_eq_false_iff_ne, ne_eq]
        exact fun hij => h hij.symm
      simp [eraseById, hu, List.find?_cons, hj]
    · simp [eraseById, hu, List.find?_cons, ih]

theorem find?_eraseById_self (i : Id) (l : List User)
    (h : (l.map (fun u => u._id)).Nodup) :
    (eraseById i l).find? (fun u => u._id == i) = none := by
  induction l with
  | nil => rfl
  | cons u rest ih =>
    simp only [List.map_cons, List.nodup_cons] at h
    by_cases hu : u._id = i
    · have hnot : ∀ v ∈ rest, ¬ v._id = i := by
        intro v hv hvi
        exact h.1 (List.mem_map.mpr ⟨v, hv, hvi.trans hu.symm⟩)
      simp [eraseById, hu]
      exact hnot
    · simp [eraseById, hu, List.find?_cons, ih h.2]

theorem find?_updateById_ne (i j : Id) (b : ReqBody) (h : j ≠ i) (l : List User) :
    (updateById i b l).find? (fun u => u._id == j) = l.find? (fun u => u._id == j) := by
  induction l with
  | nil => rfl
  | cons u rest ih =>
    by_cases hu : u._id = i
    · have hj : ¬ i = j := fun hj => h hj.symm
      simp [updateById, hu, List.find?_cons, applyUpdate, hj]
    · simp [updateById, hu, List.find?_cons, ih]

theorem updateById_split (i : Id) (b : ReqBody) (l : List User) (u : User)
    (h : l.find? (fun v => v._id == i) = some u) :
    u._id = i ∧ ∃ pre post, l = pre ++ u :: post ∧ (∀ v ∈ pre, v._id ≠ i) ∧
      updateById i b l = pre ++ applyUpdate u b :: post := by
  induction l with
  | nil => simp at h
  | cons w rest ih =>
    by_cases hw : w._id = i
    · simp [List.find?_cons, hw] at h
      subst h
      exact ⟨hw, [], rest, rfl, by simp, by simp [updateById, hw]⟩
    · simp [List.find?_cons, hw] at h
      obtain ⟨hi, pre, post, hl, hpre, hupd⟩ := ih h
      refine ⟨hi, w :: pre, post, by simp [hl], ?_, by simp [updateById, hw, hupd]⟩
      intro v hv
      rcases List.mem_cons.mp hv with hv | hv
      · rw [hv]; exact hw
      · exact hpre v hv

theorem find?_updateById_self (i : Id) (b : ReqBody) (l : List User) (u : User)
    (h : l.find? (fun v => v._id == i) = some u) :
    (updateById i b l).find? (fun v => v._id == i) = some (applyUpdate u b) := by
  induction l with
  | nil => simp at h
  | cons w rest ih =>
    by_cases hw : w._id = i
    · simp [List.find?_cons, hw] at h
      subst h
      simp [updateById, hw, List.find?_cons, applyUpdate]
    · simp [List.find?_cons, hw] at h
      simp [updateById, hw, List.find?_cons, ih h]

theorem find?_of_mem_nodup (l : List User) (h : (l.map (fun u => u._id)).Nodup)
    (v : User) (hv : v ∈ l) :
    l.find? (fun u => u._id == v._id) = some v := by
  induction l with
  | nil => cases hv
  | cons w rest ih =>
    simp only [List.map_cons, List.nodup_cons] at h
    rcases List.mem_cons.mp hv with hvw | hvr
    · subst hvw
      simp [List.find?_cons]
    · have hne : ¬ w._id = v._id := fun hw =>
        h.1 (List.mem_map.mpr ⟨v, hvr, hw.symm⟩)
      simp [List.find?_cons, hne, ih h.2 hvr]

theorem mem_eraseById (i : Id) (l : List User) (v : User) (hv : v ∈ l) (hne : v._id ≠ i) :
    v ∈ eraseById i l := by
  induction l with
  | nil => cases hv
  | cons w rest ih =>
    by_cases hw : w._id = i
    · rcases List.mem_cons.mp hv with hvw | hvr
      · subst hvw; exact absurd hw hne
      · simpa [eraseById, hw] using hvr
    · rcases List.mem_cons.mp hv with hvw | hvr
      · simp [eraseById, hw, hvw]
      · simp [eraseById, hw, ih hvr]

/-! ## Retrieval, deletion and update by identifier -/

/-- C9: when the store holds no record with identifier `i`, each of
`GET /user/i`, `DELETE /user/i` and `PUT /user/i`, with any body, answers 404
"User not found" and leaves the store as it was.  After a `DELETE /user/i`
answered 200, the body carries the record that `i` named, a following
`GET /user/i` answers 404, `GET /user/j` for every other `j` answers what
it answered before the deletion, and every record of the store with another
identifier is still in the store and is retrieved as it was: the `GET` of its
identifier answers 200 with "User data retrieved successfully" and that very
record. -/
theorem user_not_found (E : Env) (req : Request) (s : Store) (i : Id) :
    (s.findById E (some i) = .ok none →
      (app E (.getUser i) req s).response = ⟨404, .message "User not found"⟩ ∧
      (app E (.getUser i) req s).store = s ∧
      (app E (.deleteUser i) req s).response = ⟨404, .message "User not found"⟩ ∧
      (app E (.deleteUser i) req s).store = s ∧
      (app E (.updateUser i) req s).response = ⟨404, .message "User not found"⟩ ∧
      (app E (.updateUser i) req s).store = s) ∧
    (s.WF → (app E (.deleteUser i) req s).response.status = 200 →
      (∃ u, s.findById E (some i) = .ok (some u) ∧
        (app E (.deleteUser i) req s).response =
          ⟨200, .messageUser "User deleted successfully" "deletedUser" u⟩) ∧
      ∀ (E' : Env) (req' : Request), E'.storeFault = none →
        (app E' (.getUser i) req' (app E (.deleteUser i) req s).store).response =
          ⟨404, .message "User not found"⟩ ∧
        (∀ j, j ≠ i →
          (app E' (.getUser j) req' (app E (.deleteUser i) req s).store).response =
            (app E' (.getUser j) req' s).response) ∧
        (∀ v ∈ s.users, v._id ≠ i →
          v ∈ (app E (.deleteUser i) req s).store.users ∧
          (app E' (.getUser v._id) req' s).response =
            ⟨200, .messageUser "User data retrieved successfully" "user" v⟩ ∧
          (app E' (.getUser v._id) req' (app E (.deleteUser i) req s).store).response =
            ⟨200, .messageUser "User data retrieved successfully" "user" v⟩)) := by
  constructor
  · intro h
    cases hf : E.storeFault with
    | some e => simp [Store.findById, hf] at h
    | none =>
      simp only [Store.findById, hf, Except.ok.injEq] at h
      simp [app, routes, runChain, runHandler, getUser, deleteUser, updateUser,
        Store.findById, Store.findByIdAndDelete, Store.findByIdAndUpdate, hf, h]
  · intro hwf hst
    cases hf : E.storeFault with
    | some e =>
      simp [app, routes, runChain, runHandler, deleteUser, Store.findByIdAndDelete, hf,
        errorMiddleware] at hst
    | none =>
      cases hu : s.users.find? (fun u => u._id == i) with
      | none =>
        simp [app, routes, runChain, runHandler, deleteUser, Store.findByIdAndDelete, hf,
          hu] at hst
      | some u =>
        refine ⟨⟨u, by simp [Store.findById, hf, hu], by
          simp [app, routes, runChain, runHandler, deleteUser, Store.findByIdAndDelete, hf,
            hu]⟩, ?_⟩
        intro E' req' hf'
        have hstore : (app E (.deleteUser i) req s).store =
            { s with users := eraseById i s.users } := by
          simp [app, routes, runChain, runHandler, deleteUser, Store.findByIdAndDelete, hf, hu]
        rw [hstore]
        refine ⟨?_, ?_, ?_⟩
        · simp [app, routes, runChain, runHandler, getUser, Store.findById, hf',
            find?_eraseById_self i s.users hwf.1]
        · intro j hj
          have hne := find?_eraseById_ne i j hj s.users
          cases hfind : s.users.find? (fun u => u._id == j) <;>
            simp [app, routes, runChain, runHandler, getUser, Store.findById, hf', hne, hfind]
        · intro v hv hvi
          have hfind := find?_of_mem_nodup s.users hwf.1 v hv
          have hne := find?_eraseById_ne i v._id hvi s.users
          refine ⟨mem_eraseById i s.users v hv hvi, ?_, ?_⟩
          · simp [app, routes, runChain, runHandler, getUser, Store.findById, hf', hfind]
          · simp [app, routes, runChain, runHandler, getUser, Store.findById, hf', hne, hfind]

/-- Witness of `user_not_found`: in the store of Alice and Bob identifier 5
names nothing; deleting record 0 answers 200 with Alice's record, after which
record 0 is gone, record 1 is answered as before, and the `GET` of record 1
answers 200 with Bob's record. -/
theorem user_not_found_witness :
    ((app demoEnv (.getUser 5) {} twoStore).response = ⟨404, .message "User not found"⟩ ∧
      (app demoEnv (.getUser 5) {} twoStore).store = twoStore ∧
      (app demoEnv (.deleteUser 5) {} twoStore).response =
        ⟨404, .message "User not found"⟩ ∧
      (app demoEnv (.deleteUser 5) {} twoStore).store = twoStore ∧
      (app demoEnv (.updateUser 5) {} twoStore).response =
        ⟨404, .message "User not found"⟩ ∧
      (app demoEnv (.updateUser 5) {} twoStore).store = twoStore) ∧
    (∃ u, twoStore.findById demoEnv (some 0) = .ok (some u) ∧
      (app demoEnv (.deleteUser 0) {} twoStore).response =
        ⟨200, .messageUser "User deleted successfully" "deletedUser" u⟩) ∧
    (app demoEnv (.getUser 0) {} (app demoEnv (.deleteUser 0) {} twoStore).store).response =
      ⟨404, .message "User not found"⟩ ∧
    (app demoEnv (.getUser 1) {} (app demoEnv (.deleteUser 0) {} twoStore).store).response =
      (app demoEnv (.getUser 1) {} twoStore).response ∧
    (app demoEnv (.getUser 1) {} (app demoEnv (.deleteUser 0) {} twoStore).store).response =
      ⟨200, .messageUser "User data retrieved successfully" "user"
        { _id := 1, name := some "Bob", email := some "bob@example.org", image := none,
          address := none, phoneNumber := none, password := some "$2b$10$builder",
          authToken := some "UU", userSkills := [], pricePerHour := none }⟩ :=
  ⟨(user_not_found demoEnv {} twoStore 5).1 (by rfl),
    ((user_not_found demoEnv {} twoStore 0).2 (by decide) (by rfl)).1,
    (((user_not_found demoEnv {} twoStore 0).2 (by decide) (by rfl)).2 demoEnv {} rfl).1,
    (((user_not_found demoEnv {} twoStore 0).2 (by decide) (by rfl)).2 demoEnv {} rfl).2.1 1
      (by decide),
    ((((user_not_found demoEnv {} twoStore 0).2 (by decide) (by rfl)).2 demoEnv {} rfl).2.2
      { _id := 1, name := some "Bob", email := some "bob@example.org", image := none,
        address := none, phoneNumber := none, password := some "$2b$10$builder",
        authToken := some "UU", userSkills := [], pricePerHour := none }
      (by decide) (by decide)).2.2⟩

/-- C8: for a store holding a record `u` with identifier `i`, `PUT /user/i`
answers 200 with "User updated successfully" and the record as it is after the
update.  In the store that record has taken the place of `u`, at the same
position, with every record before and after it as it was, so a lookup of any
other identifier answers as before.  The updated record keeps the identifier;
each path the body names has the body's value and each path it does not name
keeps its value.  With the body naming only `name`, the record after the
update is `u` with the new name and nothing else changed. -/
theorem updateUser_frame (E : Env) (req : Request) (s : Store) (i : Id) (u : User) :
    s.findById E (some i) = .ok (some u) →
      (app E (.updateUser i) req s).response =
        ⟨200, .messageUser "User updated successfully" "updatedUser"
          (applyUpdate u req.body)⟩ ∧
      (app E (.updateUser i) req s).store.findById E (some i) =
        .ok (some (applyUpdate u req.body)) ∧
      (∀ j, j ≠ i →
        (app E (.updateUser i) req s).store.findById E (some j) = s.findById E (some j)) ∧
      (∃ pre post, s.users = pre ++ u :: post ∧ (∀ v ∈ pre, v._id ≠ i) ∧
        (app E (.updateUser i) req s).store.users =
          pre ++ applyUpdate u req.body :: post) ∧
      (app E (.updateUser i) req s).store.nextId = s.nextId ∧
      (applyUpdate u req.body)._id = i ∧
      (applyUpdate u req.body).name = (match req.body.name with
        | some x => some x | none => u.name) ∧
      (applyUpdate u req.body).email = (match req.body.email with
        | some x => some x | none => u.email) ∧
      (applyUpdate u req.body).image = (match req.body.image with
        | some x => some x | none => u.image) ∧
      (applyUpdate u req.body).address = (match req.body.address with
        | some x => some x | none => u.address) ∧
      (applyUpdate u req.body).phoneNumber = (match req.body.phoneNumber with
        | some x => some x | none => u.phoneNumber) ∧
      (applyUpdate u req.body).password = (match req.body.password with
        | some x => some x | none => u.password) ∧
      (applyUpdate u req.body).authToken = (match req.body.authToken with
        | some x => some x | none => u.authToken) ∧
      (applyUpdate u req.body).userSkills = (match req.body.userSkills with
        | some x => x | none => u.userSkills) ∧
      (applyUpdate u req.body).pricePerHour = (match req.body.pricePerHour with
        | some x => some x | none => u.pricePerHour) ∧
      (∀ X, req.body = { name := some X } →
        applyUpdate u req.body = { u with name := some X }) := by
  intro h
  cases hf : E.storeFault with
  | some e => simp [Store.findById, hf] at h
  | none =>
    simp only [Store.findById, hf, Except.ok.injEq] at h
    obtain ⟨hid, pre, post, hl, hpre, hupd⟩ := updateById_split i req.body s.users u h
    have hstore : (app E (.updateUser i) req s).store =
        { s with users := updateById i req.body s.users } := by
      simp [app, routes, runChain, runHandler, updateUser, Store.findByIdAndUpdate, hf, h]
    refine ⟨?_, ?_, ?_, ⟨pre, post, hl, hpre, ?_⟩, ?_, ?_, ?_, ?_, ?_, ?_, ?_, ?_, ?_, ?_, ?_, ?_⟩
    · simp [app, routes, runChain, runHandler, updateUser, Store.findByIdAndUpdate, hf, h]
    · rw [hstore]
      simp [Store.findById, hf, find?_updateById_self i req.body s.users u h]
    · intro j hj
      rw [hstore]
      simp [Store.findById, hf, find?_updateById_ne i j req.body hj s.users]
    · rw [hstore]; exact hupd
    · rw [hstore]
    · exact hid
    · cases hb : req.body.name <;> simp [applyUpdate, setPath, hb]
    · cases hb : req.body.email <;> simp [applyUpdate, setPath, hb]
    · cases hb : req.body.image <;> simp [applyUpdate, setPath, hb]
    · cases hb : req.body.address <;> simp [applyUpdate, setPath, hb]
    · cases hb : req.body.phoneNumber <;> simp [applyUpdate, setPath, hb]
    · cases hb : req.body.password <;> simp [applyUpdate, setPath, hb]
    · cases hb : req.body.authToken <;> simp [applyUpdate, setPath, hb]
    · cases hb : req.body.userSkills <;> simp [applyUpdate, hb]
    · cases hb : req.body.pricePerHour <;> simp [applyUpdate, setPath, hb]
    · intro X hX
      rw [hX]
      simp [applyUpdate, setPath]

/-- Witness of `updateUser_frame`: renaming Alice's record in the store of
Alice and Bob. -/
theorem updateUser_frame_witness :
    (app demoEnv (.updateUser 0) { body := { name := some "X" } } twoStore).response =
      ⟨200, .messageUser "User updated successfully" "updatedUser"
        { _id := 0, name := some "X", email := some "alice@example.org", image := none,
          address := none, phoneNumber := none, password := some "$2b$10$wonderland",
          authToken := some "U", userSkills := [], pricePerHour := none }⟩ ∧
    (app demoEnv (.updateUser 0) { body := { name := some "X" } } twoStore).store.findById
        demoEnv (some 1) = twoStore.findById demoEnv (some 1) ∧
    applyUpdate
        { _id := 0, name := some "Alice", email := some "alice@example.org", image := none,
          address := none, phoneNumber := none, password := some "$2b$10$wonderland",
          authToken := some "U", userSkills := [], pricePerHour := none }
        { name := some "X" } =
      { _id := 0, name := some "X", email := some "alice@example.org", image := none,
        address := none, phoneNumber := none, password := some "$2b$10$wonderland",
        authToken := some "U", userSkills := [], pricePerHour := none } :=
  ⟨(updateUser_frame demoEnv { body := { name := some "X" } } twoStore 0
      { _id := 0, name := some "Alice", email := some "alice@example.org", image := none,
        address := none, phoneNumber := none, password := some "$2b$10$wonderland",
        authToken := some "U", userSkills := [], pricePerHour := none } (by rfl)).1,
    (updateUser_frame demoEnv { body := { name := some "X" } } twoStore 0
      { _id := 0, name := some "Alice", email := some "alice@example.org", image := none,
        address := none, phoneNumber := none, password := some "$2b$10$wonderland",
        authToken := some "U", userSkills := [], pricePerHour := none } (by rfl)).2.2.1 1
      (by decide),
    (updateUser_frame demoEnv { body := { name := some "X" } } twoStore 0
      { _id := 0, name := some "Alice", email := some "alice@example.org", image := none,
        address := none, phoneNumber := none, password := some "$2b$10$wonderland",
        authToken := some "U", userSkills := [], pricePerHour := none }
      (by rfl)).2.2.2.2.2.2.2.2.2.2.2.2.2.2.2 "X" rfl⟩

/-- C7 (the code differs): `PUT /user/:id` writes the `password` path of the
body into the record as it is.  On Alice's record, whose password field holds
the hash made at registration, a body with password `p` is answered 200 and
leaves `p` itself in the field; for `p` = "hunter2" that is not what the hasher
returns for it, and the login with that very password is then refused. -/
theorem updateUser_stores_plaintext_password (p : String) :
    aliceStore.users.map (fun u => u.password) = [some "$2b$10$wonderland"] ∧
    (app demoEnv .register { body := aliceBody } ⟨[], 0⟩).trace.head? =
      some (.hash (some "wonderland") 10 none) ∧
    (app demoEnv (.updateUser 0) { body := { password := some p } }
      aliceStore).response.status = 200 ∧
    (app demoEnv (.updateUser 0) { body := { password := some p } }
      aliceStore).store.users.map (fun u => u.password) = [some p] ∧
    demoEnv.libs.hash (some "hunter2") 10 demoEnv.salt = .ok "$2b$10$hunter2" ∧
    (app demoEnv .login
      { body := { email := some "alice@example.org", password := some "hunter2" } }
      (app demoEnv (.updateUser 0) { body := { password := some "hunter2" } }
        aliceStore).store).response = ⟨401, .message "Invalid credentials"⟩ :=
  ⟨by rfl, by rfl, by rfl, by rfl, by rfl, by rfl⟩

/-! ## Failure responses -/

/-- Every route handler either passes an exception to `next`, or sends a
response after library calls of which none raised; the response is then a 200,
a 201, the 401 of a failed login or the 404 of a missing record. -/
theorem handler_step (E : Env) (ep : Endpoint) (req : Request) (s : Store) :
    (∃ e, ((routes ep).handler E req s).signal = .nextErr e) ∨
    (∃ r, ((routes ep).handler E req s).signal = .sent r ∧
      (∀ c ∈ ((routes ep).handler E req s).trace, c.raised = none) ∧
      (r.status = 200 ∨ r.status = 201 ∨ r = ⟨401, .message "Invalid credentials"⟩ ∨
        r = ⟨404, .message "User not found"⟩)) := by
  cases ep with
  | register =>
    simp only [routes, register]
    repeat' split
    all_goals simp [Call.raised]
  | login =>
    simp only [routes, login]
    repeat' split
    all_goals simp [Call.raised]
  | getUser i =>
    simp only [routes, getUser]
    repeat' split
    all_goals simp [Call.raised]
  | listUsers =>
    simp only [routes, listUsers]
    repeat' split
    all_goals simp [Call.raised]
  | deleteUser i =>
    simp only [routes, deleteUser]
    repeat' split
    all_goals simp [Call.raised]
  | updateUser i =>
    simp only [routes, updateUser]
    repeat' split
    all_goals simp [Call.raised]
  | protectedRoute =>
    obtain ⟨e, h, -, -⟩ := protectedRoute_signal E req s
    exact Or.inl ⟨e, h⟩

/-- With the store adapter rejecting, every route handler passes an exception
to `next`. -/
theorem handler_store_fault (E : Env) (ep : Endpoint) (req : Request) (s : Store) (e : Err)
    (hf : E.storeFault = some e) :
    ∃ e', ((routes ep).handler E req s).signal = .nextErr e' := by
  cases ep with
  | register =>
    simp only [routes, register, Store.save, hf]
    repeat' split
    all_goals simp
  | login => simp [routes, login, Store.findOne, hf]
  | getUser i => simp [routes, getUser, Store.findById, hf]
  | listUsers => simp [routes, listUsers, Store.find, hf]
  | deleteUser i => simp [routes, deleteUser, Store.findByIdAndDelete, hf]
  | updateUser i => simp [routes, updateUser, Store.findByIdAndUpdate, hf]
  | protectedRoute =>
    obtain ⟨e, h, -, -⟩ := protectedRoute_signal E req s
    exact ⟨e, h⟩

/-- The application runs the handler of the route and nothing before it. -/
theorem app_eq_runHandler (E : Env) (ep : Endpoint) (req : Request) (s : Store) :
    app E ep req s = runHandler (routes ep).handler E req s [] := by
  cases ep <;> rfl

/-- C10: on every registered route, if a call of the hasher, of the token
library or of the store adapter made while handling the request raised, the
response is 500 with exactly the message "Something went wrong"; so it is
whenever the store adapter rejects, and whenever the hasher or the issuer
rejects a registration; the response of the error-handling middleware does not
depend on the exception, so two runs that differ only in the exception raised
answer the same.  Every response outside 2xx has status 401, 404 or 500 and is
an object with only a `message`, one of the five fixed strings; the same holds
of what `verifyToken` sends. -/
theorem failures_are_generic (E : Env) (ep : Endpoint) (req : Request) (s : Store) :
    (∀ c ∈ (app E ep req s).trace, ∀ e, c.raised = some e →
      (app E ep req s).response = ⟨500, .message "Something went wrong"⟩) ∧
    (∀ e, E.storeFault = some e →
      (app E ep req s).response = ⟨500, .message "Something went wrong"⟩) ∧
    (∀ e, E.libs.hash req.body.password 10 E.salt = .error e →
      (app E .register req s).response = ⟨500, .message "Something went wrong"⟩) ∧
    (∀ h e, E.libs.hash req.body.password 10 E.salt = .ok h →
      E.libs.sign ⟨s.nextId, false⟩ E.secret oneHour E.now = .error e →
      (app E .register req s).response = ⟨500, .message "Something went wrong"⟩) ∧
    (∀ e e', errorMiddleware e = errorMiddleware e') ∧
    (∀ e e', (app { E with storeFault := some e } ep req s).response =
      (app { E with storeFault := some e' } ep req s).response) ∧
    (¬ (200 ≤ (app E ep req s).response.status ∧ (app E ep req s).response.status < 300) →
      ((app E ep req s).response.status = 401 ∨ (app E ep req s).response.status = 404 ∨
        (app E ep req s).response.status = 500) ∧
      ∃ m ∈ failureMessages, (app E ep req s).response.body = .message m) ∧
    (∀ r, (verifyToken E req).response = some r →
      r.status = 401 ∧ ∃ m ∈ failureMessages, r.body = .message m) := by
  have hfault : ∀ (E0 : Env) e, E0.storeFault = some e →
      (app E0 ep req s).response = ⟨500, .message "Something went wrong"⟩ := by
    intro E0 e hf
    obtain ⟨e', he'⟩ := handler_store_fault E0 ep req s e hf
    simp [app_eq_runHandler, runHandler, he', errorMiddleware]
  refine ⟨?_, hfault E, ?_, ?_, fun _ _ => rfl, ?_, ?_, ?_⟩
  · intro c hc e he
    rw [app_eq_runHandler] at hc ⊢
    rcases handler_step E ep req s with ⟨e', h⟩ | ⟨r, h, hnone, -⟩
    · simp [runHandler, h, errorMiddleware]
    · simp only [runHandler, h, List.nil_append] at hc
      rw [hnone c hc] at he
      cases he
  · intro e he
    simp [app, routes, runChain, runHandler, register, he, errorMiddleware]
  · intro h e hh hs
    simp [app, routes, runChain, runHandler, register, hh, hs, errorMiddleware]
  · intro e e'
    rw [hfault { E with storeFault := some e } e rfl,
      hfault { E with storeFault := some e' } e' rfl]
  · intro hst
    rw [app_eq_runHandler] at hst ⊢
    rcases handler_step E ep req s with ⟨e', h⟩ | ⟨r, h, -, hr⟩
    · simp [runHandler, h, errorMiddleware, failureMessages]
    · simp only [runHandler, h] at hst ⊢
      rcases hr with hr | hr | hr | hr
      · omega
      · omega
      · simp [hr, failureMessages]
      · simp [hr, failureMessages]
  · intro r hr
    by_cases ht : truthy req.authorization = true
    · cases hv : E.libs.verify (req.authorization.getD "") E.secret E.now with
      | error err =>
        simp [verifyToken, ht, hv, GateStep.response] at hr
        subst hr
        simp [failureMessages]
      | ok claims => simp [verifyToken, ht, hv, GateStep.response] at hr
    · simp [verifyToken, ht, GateStep.response] at hr
      subst hr
      simp [failureMessages]

/-- Witness of `failures_are_generic`: with the store unreachable the user
list is answered 500, the store call being recorded as raised; a registration
without a password, which the example hasher rejects, and one without a
signing secret, which the example issuer rejects, are answered 500; a lookup
of an unknown identifier is a 404 with one of the fixed messages; a request
without token is refused by `verifyToken` with a 401 carrying one of them. -/
theorem failures_are_generic_witness :
    ((Call.store .find (some (.lib "connection lost"))) ∈
        (app downEnv .listUsers {} aliceStore).trace ∧
      (app downEnv .listUsers {} aliceStore).response =
        ⟨500, .message "Something went wrong"⟩) ∧
    (downEnv.storeFault = some (.lib "connection lost") ∧
      (app downEnv (.getUser 0) {} aliceStore).response =
        ⟨500, .message "Something went wrong"⟩) ∧
    (app demoEnv .register {} aliceStore).response =
      ⟨500, .message "Something went wrong"⟩ ∧
    (app noSecretEnv .register { body := bobBody } aliceStore).response =
      ⟨500, .message "Something went wrong"⟩ ∧
    (((app demoEnv (.getUser 5) {} aliceStore).response.status = 401 ∨
        (app demoEnv (.getUser 5) {} aliceStore).response.status = 404 ∨
        (app demoEnv (.getUser 5) {} aliceStore).response.status = 500) ∧
      ∃ m ∈ failureMessages, (app demoEnv (.getUser 5) {} aliceStore).response.body =
        .message m) ∧
    ((⟨401, .message "Authorization token missing"⟩ : Response).status = 401 ∧
      ∃ m ∈ failureMessages,
        (⟨401, .message "Authorization token missing"⟩ : Response).body = .message m) :=
  ⟨⟨by decide, (failures_are_generic downEnv .listUsers {} aliceStore).1
      (.store .find (some (.lib "connection lost"))) (by decide) (.lib "connection lost") rfl⟩,
    ⟨rfl, (failures_are_generic downEnv (.getUser 0) {} aliceStore).2.1
      (.lib "connection lost") rfl⟩,
    (failures_are_generic demoEnv .register {} aliceStore).2.2.1
      (.lib "data and salt arguments required") rfl,
    (failures_are_generic noSecretEnv .register { body := bobBody } aliceStore).2.2.2.1
      "$2b$10$builder" (.lib "secretOrPrivateKey must have a value") rfl rfl,
    (failures_are_generic demoEnv (.getUser 5) {} aliceStore).2.2.2.2.2.2.1 (by decide),
    (failures_are_generic demoEnv .listUsers {} aliceStore).2.2.2.2.2.2.2
      ⟨401, .message "Authorization token missing"⟩ (by rfl)⟩

/-! ## Registration, login and the tokens they issue -/

/-- A registration answered 201: the hasher and the issuer returned, the store
took the new record, and the response carries the token stored in it. -/
theorem register_success (E : Env) (req : Request) (s : Store)
    (h : (app E .register req s).response.status = 201) :
    ∃ hashed tok, E.libs.hash req.body.password 10 E.salt = .ok hashed ∧
      E.libs.sign ⟨s.nextId, false⟩ E.secret oneHour E.now = .ok tok ∧
      E.storeFault = none ∧
      (app E .register req s).response =
        ⟨201, .messageToken "User registered successfully" tok⟩ ∧
      (app E .register req s).store =
        { users := s.users ++ [
            { _id := s.nextId
              name := req.body.name
              email := req.body.email
              image := req.body.image
              address := req.body.address
              phoneNumber := req.body.phoneNumber
              password := some hashed
              authToken := some tok
              userSkills := req.body.userSkills.getD []
              pricePerHour := req.body.pricePerHour }]
          nextId := s.nextId + 1 } := by
  cases hh : E.libs.hash req.body.password 10 E.salt with
  | error e => simp [app, routes, runChain, runHandler, register, hh, errorMiddleware] at h
  | ok hashed =>
    cases hs : E.libs.sign ⟨s.nextId, false⟩ E.secret oneHour E.now with
    | error e =>
      simp [app, routes, runChain, runHandler, register, hh, hs, errorMiddleware] at h
    | ok tok =>
      cases hf : E.storeFault with
      | some e =>
        simp [app, routes, runChain, runHandler, register, hh, hs, Store.save, hf,
          errorMiddleware] at h
      | none =>
        exact ⟨hashed, tok, rfl, rfl, rfl,
          by simp [app, routes, runChain, runHandler, register, hh, hs, Store.save, hf],
          by simp [app, routes, runChain, runHandler, register, hh, hs, Store.save, hf]⟩

/-- A login answered 200: a record matched the email, the password check
passed and the issuer returned the token of the response. -/
theorem login_success (E : Env) (req : Request) (s : Store)
    (h : (app E .login req s).response.status = 200) :
    ∃ u tok, s.findOne E req.body.email = .ok (some u) ∧
      E.libs.compare req.body.password u.password = .ok true ∧
      E.libs.sign ⟨u._id, false⟩ E.secret oneHour E.now = .ok tok ∧
      (app E .login req s).response = ⟨200, .messageToken "Login successful" tok⟩ := by
  cases hf : s.findOne E req.body.email with
  | error e => simp [app, routes, runChain, runHandler, login, hf, errorMiddleware] at h
  | ok found =>
    cases found with
    | none => simp [app, routes, runChain, runHandler, login, hf] at h
    | some u =>
      cases hc : E.libs.compare req.body.password u.password with
      | error e => simp [app, routes, runChain, runHandler, login, hf, hc, errorMiddleware] at h
      | ok b =>
        cases b with
        | false => simp [app, routes, runChain, runHandler, login, hf, hc] at h
        | true =>
          cases hs : E.libs.sign ⟨u._id, false⟩ E.secret oneHour E.now with
          | error e =>
            simp [app, routes, runChain, runHandler, login, hf, hc, hs, errorMiddleware] at h
          | ok tok =>
            exact ⟨u, tok, rfl, hc, hs,
              by simp [app, routes, runChain, runHandler, login, hf, hc, hs]⟩

/-- A token the library issued for one hour passes the gate, under the same
secret and within the hour, and the gate attaches the signed claims. -/
theorem verifyToken_accepts (E E' : Env) (req' : Request) (c : Claims) (tok : String)
    (hL : TokenContract E.libs) (hlibs : E'.libs = E.libs) (hsec : E'.secret = E.secret)
    (h0 : E.now ≤ E'.now) (h1 : E'.now < E.now + oneHour)
    (hs : E.libs.sign c E.secret oneHour E.now = .ok tok)
    (hreq : req'.authorization = some tok) :
    (verifyToken E' req').signal = .next ∧
      (verifyToken E' req').req.userId = some c.userId ∧
      (verifyToken E' req').req.isAdmin = some c.isAdmin := by
  obtain ⟨hne, hv⟩ := hL c E.secret oneHour E.now tok hs
  have hv' : E'.libs.verify tok E'.secret E'.now = .ok c := by
    rw [hlibs, hsec]; exact hv E'.now h0 h1
  simp [verifyToken, hreq, truthy, hne, hv']

/-- Every token a route handler signs has the administrator flag `false`, the
process secret and one hour of life. -/
theorem handler_sign_calls (E : Env) (ep : Endpoint) (req : Request) (s : Store) :
    ∀ c ∈ ((routes ep).handler E req s).trace, ∀ payload secret ttl r,
      c = .sign payload secret ttl r →
        payload.isAdmin = false ∧ secret = E.secret ∧ ttl = oneHour := by
  cases ep with
  | register =>
    simp only [routes, register]
    repeat' split
    all_goals simp
    all_goals (intros; subst_vars; simp_all)
  | login =>
    simp only [routes, login]
    repeat' split
    all_goals simp
    all_goals (intros; subst_vars; simp_all)
  | getUser i =>
    simp only [routes, getUser]
    repeat' split
    all_goals simp
  | listUsers =>
    simp only [routes, listUsers]
    repeat' split
    all_goals simp
  | deleteUser i =>
    simp only [routes, deleteUser]
    repeat' split
    all_goals simp
  | updateUser i =>
    simp only [routes, updateUser]
    repeat' split
    all_goals simp
  | protectedRoute =>
    simp only [routes, protectedRoute]
    repeat' split
    all_goals simp

/-- The example token library satisfies the contract of the token library. -/
theorem demoLibs_tokenContract : TokenContract demoLibs := by
  intro c secret expiresIn t0 tok h
  cases secret with
  | none => simp [demoLibs, demoSign] at h
  | some sec =>
    simp only [demoLibs, demoSign, Except.ok.injEq] at h
    subst h
    constructor
    · intro heq
      have hlen := congrArg String.length heq
      simp [String.length] at hlen
    · intro t _ _
      cases hc : c.isAdmin <;> cases c <;>
        simp_all [demoLibs, demoVerify, List.replicate_succ]

/-- The example hasher satisfies the contract of the credential hasher. -/
theorem demoLibs_hasherContract : HasherContract demoLibs := by
  intro p rounds salt h hh
  simp only [demoLibs, demoHash, Except.ok.injEq] at hh
  subst hh
  refine ⟨?_, ?_, ?_⟩
  · intro heq
    have hlen := congrArg String.length heq
    simp [String.length_append] at hlen
    have : ("$2b$10$" : String).length = 7 := by decide
    omega
  · intro heq
    have hlen := congrArg String.length heq
    simp [String.length_append] at hlen
    have : ("$2b$10$" : String).length = 7 := by decide
    omega
  · simp [demoLibs, demoCompare]

/-- C5: with a token library that keeps its contract, a token returned by
`POST /register` or by `POST /login`, presented as the `Authorization` header
under the same secret within the hour after it was issued, passes
`verifyToken`: no response is sent, `next` is called once, `req.userId` is the
identifier of the record the token was issued for (the one just inserted, or
the one that logged in) and `req.isAdmin` is `false`.  Every token a route
signs has the administrator flag `false`, the process secret and one hour of
life. -/
theorem issued_token_round_trip (E E' : Env) (req req' : Request) (s : Store)
    (m tok : String)
    (hL : TokenContract E.libs) (hlibs : E'.libs = E.libs) (hsec : E'.secret = E.secret)
    (h0 : E.now ≤ E'.now) (h1 : E'.now < E.now + 3600)
    (hreq : req'.authorization = some tok) :
    ((app E .register req s).response = ⟨201, .messageToken m tok⟩ →
      ∃ u, (app E .register req s).store.users = s.users ++ [u] ∧
        u._id = s.nextId ∧ u.authToken = some tok ∧
        (verifyToken E' req').response = none ∧
        (verifyToken E' req').nextCalls = 1 ∧
        (verifyToken E' req').req.userId = some u._id ∧
        (verifyToken E' req').req.isAdmin = some false) ∧
    ((app E .login req s).response = ⟨200, .messageToken m tok⟩ →
      ∃ u, s.findOne E req.body.email = .ok (some u) ∧
        (verifyToken E' req').response = none ∧
        (verifyToken E' req').nextCalls = 1 ∧
        (verifyToken E' req').req.userId = some u._id ∧
        (verifyToken E' req').req.isAdmin = some false) ∧
    (∀ ep, ∀ c ∈ (app E ep req s).trace, ∀ payload secret ttl r,
      c = .sign payload secret ttl r →
        payload.isAdmin = false ∧ secret = E.secret ∧ ttl = 3600) := by
  refine ⟨?_, ?_, ?_⟩
  · intro hres
    have hst : (app E .register req s).response.status = 201 := by rw [hres]
    obtain ⟨hashed, tok', -, hs, -, hres', hstore⟩ := register_success E req s hst
    rw [hres] at hres'
    have htok : tok = tok' := by injection hres' with _ hb; injection hb
    subst htok
    obtain ⟨hsig, hu, ha⟩ :=
      verifyToken_accepts E E' req' ⟨s.nextId, false⟩ tok hL hlibs hsec h0 h1 hs hreq
    refine ⟨_, by rw [hstore], rfl, rfl, ?_, ?_, hu, ha⟩
    · simp [GateStep.response, hsig]
    · simp [GateStep.nextCalls, hsig]
  · intro hres
    have hst : (app E .login req s).response.status = 200 := by rw [hres]
    obtain ⟨u, tok', hf, -, hs, hres'⟩ := login_success E req s hst
    rw [hres] at hres'
    have htok : tok = tok' := by injection hres' with _ hb; injection hb
    subst htok
    obtain ⟨hsig, hu, ha⟩ :=
      verifyToken_accepts E E' req' ⟨u._id, false⟩ tok hL hlibs hsec h0 h1 hs hreq
    refine ⟨u, hf, ?_, ?_, hu, ha⟩
    · simp [GateStep.response, hsig]
    · simp [GateStep.nextCalls, hsig]
  · intro ep c hc payload secret ttl r hcs
    rw [app_eq_runHandler] at hc
    have hc' : c ∈ ((routes ep).handler E req s).trace := by
      simp only [runHandler] at hc
      split at hc <;> simpa using hc
    exact handler_sign_calls E ep req s c hc' payload secret ttl r hcs

/-- Witness of `issued_token_round_trip`: the token Alice got at registration,
and the one she gets at login, pass the gate half an hour later and name
record 0 without the administrator flag; the token signed at her registration
was signed with the flag `false`. -/
theorem issued_token_round_trip_witness :
    (∃ u, (app demoEnv .register { body := aliceBody } ⟨[], 0⟩).store.users = [] ++ [u] ∧
      u._id = 0 ∧ u.authToken = some "U" ∧
      (verifyToken laterEnv { authorization := some "U" }).response = none ∧
      (verifyToken laterEnv { authorization := some "U" }).nextCalls = 1 ∧
      (verifyToken laterEnv { authorization := some "U" }).req.userId = some u._id ∧
      (verifyToken laterEnv { authorization := some "U" }).req.isAdmin = some false) ∧
    (∃ u, aliceStore.findOne demoEnv aliceBody.email = .ok (some u) ∧
      (verifyToken laterEnv { authorization := some "U" }).response = none ∧
      (verifyToken laterEnv { authorization := some "U" }).nextCalls = 1 ∧
      (verifyToken laterEnv { authorization := some "U" }).req.userId = some u._id ∧
      (verifyToken laterEnv { authorization := some "U" }).req.isAdmin = some false) ∧
    (Call.sign ⟨0, false⟩ (some "s3cret") 3600 none ∈
        (app demoEnv .register { body := aliceBody } ⟨[], 0⟩).trace ∧
      (⟨0, false⟩ : Claims).isAdmin = false ∧ some "s3cret" = demoEnv.secret ∧ 3600 = 3600) :=
  ⟨(issued_token_round_trip demoEnv laterEnv { body := aliceBody }
      { authorization := some "U" } ⟨[], 0⟩ "User registered successfully" "U"
      demoLibs_tokenContract rfl rfl (by decide) (by decide) rfl).1 (by rfl),
    (issued_token_round_trip demoEnv laterEnv { body := aliceBody }
      { authorization := some "U" } aliceStore "Login successful" "U"
      demoLibs_tokenContract rfl rfl (by decide) (by decide) rfl).2.1 (by rfl),
    by decide,
    (issued_token_round_trip demoEnv laterEnv { body := aliceBody }
      { authorization := some "U" } ⟨[], 0⟩ "User registered successfully" "U"
      demoLibs_tokenContract rfl rfl (by decide) (by decide) rfl).2.2 .register
      (.sign ⟨0, false⟩ (some "s3cret") 3600 none) (by decide) ⟨0, false⟩ (some "s3cret")
      3600 none rfl⟩

/-- A login that finds a record whose stored hash passes the password check
records that check, is not answered 401, and is answered 200 with the token
the issuer returns. -/
theorem login_password_accepted (E : Env) (req : Request) (s : Store) (u : User)
    (hf : s.findOne E req.body.email = .ok (some u))
    (hc : E.libs.compare req.body.password u.password = .ok true) :
    Call.compare req.body.password u.password none ∈ (app E .login req s).trace ∧
    (app E .login req s).response.status ≠ 401 ∧
    ∀ tok, E.libs.sign ⟨u._id, false⟩ E.secret oneHour E.now = .ok tok →
      (app E .login req s).response = ⟨200, .messageToken "Login successful" tok⟩ := by
  refine ⟨?_, ?_, ?_⟩
  · cases hs : E.libs.sign ⟨u._id, false⟩ E.secret oneHour E.now <;>
      simp [app, routes, runChain, runHandler, login, hf, hc, hs]
  · cases hs : E.libs.sign ⟨u._id, false⟩ E.secret oneHour E.now <;>
      simp [app, routes, runChain, runHandler, login, hf, hc, hs, errorMiddleware]
  · intro tok hs
    simp [app, routes, runChain, runHandler, login, hf, hc, hs]

/-- C6, as stated, fails: the store does not keep emails unique and the login
looks at the first record with the email.  A second registration under
Alice's email is answered 201 and its record holds the hash of the new
password, which passes the check against it; the login with that email and
the new password is refused all the same.  The example hasher keeps its
contract. -/
theorem register_duplicate_email_login_refused :
    HasherContract demoLibs ∧
    (app demoEnv .register { body := secondBody } aliceStore).response =
      ⟨201, .messageToken "User registered successfully" "UU"⟩ ∧
    (app demoEnv .register { body := secondBody } aliceStore).store.users.map
        (fun u => (u._id, u.email, u.password)) =
      [(0, some "alice@example.org", some "$2b$10$wonderland"),
        (1, some "alice@example.org", some "$2b$10$looking-glass")] ∧
    demoEnv.libs.compare (some "looking-glass") (some "$2b$10$looking-glass") = .ok true ∧
    (app demoEnv .login
      { body := { email := some "alice@example.org", password := some "looking-glass" } }
      (app demoEnv .register { body := secondBody } aliceStore).store).response =
      ⟨401, .message "Invalid credentials"⟩ :=
  ⟨demoLibs_hasherContract, by rfl, by rfl, by rfl, by rfl⟩

/-- C6, amended: with a hasher that keeps its contract, a registration with
password `p` that is answered 201 has appended one record to the store; its
password field is what the hasher returned for `p` with cost factor 10, which
is neither `p` nor empty and passes the check against `p`; the response is 201
with "User registered successfully" and the token that is stored in the
record.  If no record that was in the store before has the same email, a
following login with that email and `p` is not answered 401; when the store
answers, the login finds the new record, runs the password check on `p` and
the stored hash, and is answered 200 as soon as the issuer returns a token. -/
theorem register_stores_hash (E E' : Env) (req req' : Request) (s : Store) (p : String)
    (hL : HasherContract E.libs) (hp : req.body.password = some p)
    (hok : (app E .register req s).response.status = 201) :
    ∃ hashed tok u,
      E.libs.hash (some p) 10 E.salt = .ok hashed ∧
      (app E .register req s).store.users = s.users ++ [u] ∧
      u.password = some hashed ∧ hashed ≠ p ∧ hashed ≠ "" ∧
      E.libs.compare (some p) u.password = .ok true ∧
      (app E .register req s).response =
        ⟨201, .messageToken "User registered successfully" tok⟩ ∧
      u.authToken = some tok ∧
      u.email = req.body.email ∧
      ((∀ v ∈ s.users, v.email ≠ req.body.email) → E'.libs = E.libs →
        req'.body.email = req.body.email → req'.body.password = some p →
        (app E' .login req' (app E .register req s).store).response.status ≠ 401 ∧
        (E'.storeFault = none →
          (app E .register req s).store.findOne E' req'.body.email = .ok (some u) ∧
          Call.compare (some p) (some hashed) none ∈
            (app E' .login req' (app E .register req s).store).trace ∧
          ∀ tok', E'.libs.sign ⟨u._id, false⟩ E'.secret oneHour E'.now = .ok tok' →
            (app E' .login req' (app E .register req s).store).response =
              ⟨200, .messageToken "Login successful" tok'⟩)) := by
  obtain ⟨hashed, tok, hh, -, -, hres, hstore⟩ := register_success E req s hok
  rw [hp] at hh
  obtain ⟨hne, hnp, hcmp⟩ := hL p 10 E.salt hashed hh
  refine ⟨hashed, tok, _, hh, by rw [hstore], rfl, hnp, hne, hcmp, hres, rfl, rfl, ?_⟩
  intro huniq hlibs hemail hpw
  have hnone : s.users.find? (fun v => v.email == req.body.email) = none := by
    rw [List.find?_eq_none]
    intro v hv
    simpa using huniq v hv
  have hcmp' : E'.libs.compare req'.body.password (some hashed) = .ok true := by
    rw [hlibs, hpw]; exact hcmp
  have hup : ∀ (hf : E'.storeFault = none),
      (app E .register req s).store.findOne E' req'.body.email = .ok (some
        { _id := s.nextId
          name := req.body.name
          email := req.body.email
          image := req.body.image
          address := req.body.address
          phoneNumber := req.body.phoneNumber
          password := some hashed
          authToken := some tok
          userSkills := req.body.userSkills.getD []
          pricePerHour := req.body.pricePerHour }) := by
    intro hf
    rw [hstore, hemail]
    simp [Store.findOne, hf, List.find?_append, hnone]
  constructor
  · cases hf : E'.storeFault with
    | some e =>
      obtain ⟨e', he'⟩ :=
        handler_store_fault E' .login req' (app E .register req s).store e hf
      rw [app_eq_runHandler]
      simp [runHandler, he', errorMiddleware]
    | none =>
      exact (login_password_accepted E' req' (app E .register req s).store _ (hup hf)
        hcmp').2.1
  · intro hf
    have hlogin :=
      login_password_accepted E' req' (app E .register req s).store _ (hup hf) hcmp'
    rw [hpw] at hlogin
    exact ⟨hup hf, hlogin.1, hlogin.2.2⟩

/-- Witness of `register_stores_hash`: Alice's registration with an empty
store, followed by her login. -/
theorem register_stores_hash_witness :
    ∃ hashed tok u,
      demoEnv.libs.hash (some "wonderland") 10 demoEnv.salt = .ok hashed ∧
      (app demoEnv .register { body := aliceBody } ⟨[], 0⟩).store.users = [] ++ [u] ∧
      u.password = some hashed ∧ hashed ≠ "wonderland" ∧ hashed ≠ "" ∧
      demoEnv.libs.compare (some "wonderland") u.password = .ok true ∧
      (app demoEnv .register { body := aliceBody } ⟨[], 0⟩).response =
        ⟨201, .messageToken "User registered successfully" tok⟩ ∧
      u.authToken = some tok ∧
      u.email = some "alice@example.org" ∧
      (app laterEnv .login { body := aliceBody }
        (app demoEnv .register { body := aliceBody } ⟨[], 0⟩).store).response.status ≠ 401 ∧
      (laterEnv.libs.sign ⟨u._id, false⟩ laterEnv.secret oneHour laterEnv.now = .ok "U" →
        (app laterEnv .login { body := aliceBody }
          (app demoEnv .register { body := aliceBody } ⟨[], 0⟩).store).response =
          ⟨200, .messageToken "Login successful" "U"⟩) := by
  obtain ⟨hashed, tok, u, h1, h2, h3, h4, h5, h6, h7, h8, h9, h10⟩ :=
    register_stores_hash demoEnv laterEnv { body := aliceBody } { body := aliceBody } ⟨[], 0⟩
      "wonderland" demoLibs_hasherContract rfl (by rfl)
  exact ⟨hashed, tok, u, h1, h2, h3, h4, h5, h6, h7, h8, h9,
    (h10 (by simp) rfl rfl rfl).1, ((h10 (by simp) rfl rfl rfl).2 rfl).2.2 "U"⟩

/-! ## The invariant of the collection -/

theorem eraseById_sublist (i : Id) (l : List User) : (eraseById i l).Sublist l := by
  induction l with
  | nil => exact List.Sublist.slnil
  | cons u rest ih =>
    by_cases hu : u._id = i
    · simp [eraseById, hu]
    · simp [eraseById, hu, ih]

theorem map_id_updateById (i : Id) (b : ReqBody) (l : List User) :
    (updateById i b l).map (fun u => u._id) = l.map (fun u => u._id) := by
  induction l with
  | nil => rfl
  | cons u rest ih =>
    by_cases hu : u._id = i
    · simp [updateById, hu, applyUpdate]
    · simp [updateById, hu, ih]

theorem wf_of_ids (users users' : List User) (n : Id) (h : (⟨users, n⟩ : Store).WF)
    (hsub : (users'.map (fun u => u._id)).Sublist (users.map (fun u => u._id))) :
    (⟨users', n⟩ : Store).WF := by
  refine ⟨h.1.sublist hsub, ?_⟩
  intro u hu
  have hmem : u._id ∈ users.map (fun u => u._id) :=
    hsub.subset (List.mem_map.mpr ⟨u, hu, rfl⟩)
  obtain ⟨v, hv, hvu⟩ := List.mem_map.mp hmem
  have hvu' : v._id = u._id := hvu
  have hlt : v._id < n := h.2 v hv
  exact hvu' ▸ hlt

/-- The empty collection satisfies the invariant, and every request on a
registered route preserves it. -/
theorem app_preserves_WF (E : Env) (ep : Endpoint) (req : Request) (s : Store) :
    (⟨[], 0⟩ : Store).WF ∧ (s.WF → (app E ep req s).store.WF) := by
  refine ⟨by decide, ?_⟩
  intro h
  cases ep with
  | register =>
    have hcase : (app E .register req s).store = s ∨
        ∃ u : User, u._id = s.nextId ∧
          (app E .register req s).store = ⟨s.users ++ [u], s.nextId + 1⟩ := by
      cases hh : E.libs.hash req.body.password 10 E.salt with
      | error e => exact Or.inl (by simp [app, routes, runChain, runHandler, register, hh])
      | ok hashed =>
        cases hs : E.libs.sign ⟨s.nextId, false⟩ E.secret oneHour E.now with
        | error e =>
          exact Or.inl (by simp [app, routes, runChain, runHandler, register, hh, hs])
        | ok tok =>
          cases hf : E.storeFault with
          | some e =>
            exact Or.inl (by
              simp [app, routes, runChain, runHandler, register, hh, hs, Store.save, hf])
          | none =>
            exact Or.inr ⟨
              { _id := s.nextId
                name := req.body.name
                email := req.body.email
                image := req.body.image
                address := req.body.address
                phoneNumber := req.body.phoneNumber
                password := some hashed
                authToken := some tok
                userSkills := req.body.userSkills.getD []
                pricePerHour := req.body.pricePerHour }, rfl, by
              simp [app, routes, runChain, runHandler, register, hh, hs, Store.save, hf]⟩
    rcases hcase with hc | ⟨u, hid, hc⟩
    · rw [hc]; exact h
    · rw [hc]
      obtain ⟨hnd, hlt⟩ := h
      refine ⟨?_, ?_⟩
      · show ((s.users ++ [u]).map (fun u => u._id)).Nodup
        rw [List.map_append, List.nodup_append]
        refine ⟨hnd, by simp, ?_⟩
        intro a ha hb
        have hau : a = u._id := by simpa using hb
        obtain ⟨v, hv, hva⟩ := List.mem_map.mp ha
        have hva' : v._id = a := hva
        have hlt' : v._id < s.nextId := hlt v hv
        rw [hva', hau, hid] at hlt'
        exact Nat.lt_irrefl _ hlt'
      · intro v hv
        have hv' : v ∈ s.users ++ [u] := hv
        show v._id < s.nextId + 1
        rcases List.mem_append.mp hv' with hv' | hv'
        · exact Nat.lt_succ_of_lt (hlt v hv')
        · have hvu : v = u := by simpa using hv'
          rw [hvu, hid]
          exact Nat.lt_succ_self _
  | login =>
    have hsame : (app E .login req s).store = s := by
      simp only [app, routes, runChain, runHandler, login]
      repeat' split
      all_goals simp_all
    rw [hsame]; exact h
  | getUser i =>
    have hsame : (app E (.getUser i) req s).store = s := by
      simp only [app, routes, runChain, runHandler, getUser]
      repeat' split
      all_goals simp_all
    rw [hsame]; exact h
  | listUsers =>
    have hsame : (app E .listUsers req s).store = s := by
      simp only [app, routes, runChain, runHandler, listUsers]
      repeat' split
      all_goals simp_all
    rw [hsame]; exact h
  | protectedRoute =>
    obtain ⟨e, hsig, hs, -⟩ := protectedRoute_signal E req s
    have hsame : (app E .protectedRoute req s).store = s := by
      simpa [app, routes, runChain, runHandler, hsig] using hs
    rw [hsame]; exact h
  | deleteUser i =>
    have hcase : (app E (.deleteUser i) req s).store = s ∨
        (app E (.deleteUser i) req s).store = ⟨eraseById i s.users, s.nextId⟩ := by
      cases hf : E.storeFault with
      | some e =>
        exact Or.inl (by
          simp [app, routes, runChain, runHandler, deleteUser, Store.findByIdAndDelete, hf])
      | none =>
        cases hu : s.users.find? (fun u => u._id == i) with
        | none =>
          exact Or.inl (by
            simp [app, routes, runChain, runHandler, deleteUser, Store.findByIdAndDelete, hf,
              hu])
        | some u =>
          exact Or.inr (by
            simp [app, routes, runChain, runHandler, deleteUser, Store.findByIdAndDelete, hf,
              hu])
    rcases hcase with hc | hc
    · rw [hc]; exact h
    · rw [hc]
      exact wf_of_ids s.users _ s.nextId h ((eraseById_sublist i s.users).map _)
  | updateUser i =>
    have hcase : (app E (.updateUser i) req s).store = s ∨
        (app E (.updateUser i) req s).store = ⟨updateById i req.body s.users, s.nextId⟩ := by
      cases hf : E.storeFault with
      | some e =>
        exact Or.inl (by
          simp [app, routes, runChain, runHandler, updateUser, Store.findByIdAndUpdate, hf])
      | none =>
        cases hu : s.users.find? (fun u => u._id == i) with
        | none =>
          exact Or.inl (by
            simp [app, routes, runChain, runHandler, updateUser, Store.findByIdAndUpdate, hf,
              hu])
        | some u =>
          exact Or.inr (by
            simp [app, routes, runChain, runHandler, updateUser, Store.findByIdAndUpdate, hf,
              hu])
    rcases hcase with hc | hc
    · rw [hc]; exact h
    · rw [hc]
      refine wf_of_ids s.users _ s.nextId h ?_
      rw [map_id_updateById]

end Server
